import Mathlib

/-!
Verification of the fitcal backend core against its natural-language
specification.  The relevant TypeScript functions are shallowly embedded as
Lean definitions: JS strings are modelled as `String` or `List Char`
(code-unit lists), JS numbers as `ℚ` (exact rationals standing in for IEEE
doubles) or `Int` (millisecond timestamps, epoch-day numbers), fallible
operations as `Option`, and the document store / model client as explicit
state and oracle parameters.
-/

namespace FitCal

/-! ## Streaming model client: incremental delta reconciliation

Embedding of the delta logic of `handleLine` inside `streamCoachResponse`
(geminiService).  Texts are lists of characters; the stream of parsed
events is abstracted to the sequence of non-null cumulative candidate
texts it carries (`extractCandidateText` results). -/

/-- One step of `handleLine`: given the accumulated `fullText` and the newly
extracted cumulative `candidateText`, the delta is the suffix of
`candidateText` past `fullText` when `fullText` is non-empty and a prefix of
`candidateText` (`candidateText.startsWith(fullText)`), and the entire
`candidateText` otherwise. -/
def extractDelta (fullText candidateText : List Char) : List Char :=
  if fullText ≠ [] ∧ fullText.isPrefixOf candidateText then
    candidateText.drop fullText.length
  else candidateText

/-- The stream loop of `streamCoachResponse`: consume the cumulative
candidate texts in order; an empty candidate is skipped
(`if (!candidateText) return`), an empty delta is skipped (`if (delta)`),
and each non-empty delta is emitted and appended to the accumulated text
(`fullText += delta`).  Returns the emitted deltas in order together with
the final accumulated text resolved at end-of-stream. -/
def processCandidates (fullText : List Char) :
    List (List Char) → List (List Char) × List Char
  | [] => ([], fullText)
  | c :: rest =>
    if c = [] then processCandidates fullText rest
    else
      let d := extractDelta fullText c
      if d = [] then processCandidates fullText rest
      else
        let r := processCandidates (fullText ++ d) rest
        (d :: r.1, r.2)

theorem processCandidates_final_eq_join (cs : List (List Char)) :
    ∀ s, (processCandidates s cs).2 = s ++ (processCandidates s cs).1.flatten := by
  induction cs with
  | nil => intro s; simp [processCandidates]
  | cons c rest ih =>
    intro s
    by_cases hc : c = []
    · simp only [processCandidates, if_pos hc]
      exact ih s
    · simp only [processCandidates, if_neg hc]
      by_cases hd : extractDelta s c = []
      · simp only [if_pos hd]
        exact ih s
      · simp only [if_neg hd, List.flatten]
        rw [ih (s ++ extractDelta s c)]
        simp [List.append_assoc]

theorem extractDelta_of_prefix (s c : List Char) (h : s.isPrefixOf c) :
    s ++ extractDelta s c = c := by
  by_cases hs : s = []
  · subst hs; simp [extractDelta]
  · have hpre : s <+: c := by
      exact List.isPrefixOf_iff_prefix.mp h
    obtain ⟨t, ht⟩ := hpre
    unfold extractDelta
    rw [if_pos ⟨hs, h⟩, ← ht, List.drop_left]

theorem extractDelta_of_not_prefix (s c : List Char) (h : ¬ s.isPrefixOf c) :
    extractDelta s c = c := by
  unfold extractDelta
  rw [if_neg]
  rintro ⟨-, hp⟩
  exact h hp

/-- C3: each emitted delta equals the suffix of the new cumulative text
beyond the previously accumulated text when the latter is a prefix of the
former, and equals the entire new text otherwise; the concatenation of all
emitted deltas equals the final accumulated text resolved at end-of-stream;
cumulative texts "Hi", "Hi there", "Hi there!" yield deltas "Hi", " there",
"!"; and a non-prefix-extending sequence such as "Hello" then "Hi" is
processed without error, the full new text being emitted as the delta. -/
theorem streamDelta_reconciliation :
    (∀ cs : List (List Char),
        (processCandidates [] cs).1.flatten = (processCandidates [] cs).2)
    ∧ (∀ s c : List Char, s.isPrefixOf c → s ++ extractDelta s c = c)
    ∧ (∀ s c : List Char, ¬ s.isPrefixOf c → extractDelta s c = c)
    ∧ processCandidates [] ["Hi".toList, "Hi there".toList, "Hi there!".toList]
        = (["Hi".toList, " there".toList, "!".toList], "Hi there!".toList)
    ∧ processCandidates [] ["Hello".toList, "Hi".toList]
        = (["Hello".toList, "Hi".toList], "HelloHi".toList) := by
  refine ⟨?_, extractDelta_of_prefix, extractDelta_of_not_prefix, ?_, ?_⟩
  · intro cs
    rw [processCandidates_final_eq_join cs []]
    simp
  · decide
  · decide

/-- Concrete instantiation of `streamDelta_reconciliation` discharging its
hypotheses: the prefix case at ("Hi", "Hi there") and the non-prefix case at
("Hello", "Hi"). -/
theorem streamDelta_reconciliation_witness :
    "Hi".toList ++ extractDelta "Hi".toList "Hi there".toList = "Hi there".toList
    ∧ extractDelta "Hello".toList "Hi".toList = "Hi".toList :=
  ⟨streamDelta_reconciliation.2.1 _ _ (by decide),
   streamDelta_reconciliation.2.2.1 _ _ (by decide)⟩

/-! ## Time-bucketing utility (timezone.ts)

`Intl.DateTimeFormat(...)` is platform machinery, not repository code.  A
*recognized* zone's formatter is modelled by a `TimeZone`: a function
giving, for each absolute instant (milliseconds since epoch), the
`timeZoneName` part value `formatToParts` renders (`none` when the part is
absent).  The platform's identifier lookup — including the RangeError the
constructor throws for an *unrecognized* identifier — is modelled
separately by `ZoneDatabase` below.  Civil date strings `YYYY-MM-DD` are
represented by their epoch-day number, the Gregorian rendering performed
by `Date.UTC` / `Intl` being a bijection between the two. -/

/-- A recognized zone's formatter: the `timeZoneName` part value rendered
at each instant. -/
def TimeZone : Type := Int → Option (List Char)

def digitVal (c : Char) : Int := ((c.toNat - '0'.toNat : Nat) : Int)

/-- The optional minutes group of the offset pattern, an optional colon
followed by exactly two digits; when it does not match, the group is empty
and `Number(match[3] || 0)` yields 0. -/
def readOffsetMinutes : List Char → Int
  | ':' :: e1 :: e2 :: _ =>
    if e1.isDigit ∧ e2.isDigit then 10 * digitVal e1 + digitVal e2 else 0
  | e1 :: e2 :: _ =>
    if e1.isDigit ∧ e2.isDigit then 10 * digitVal e1 + digitVal e2 else 0
  | _ => 0

/-- The sign, one-or-two-digit hours (greedy) and optional minutes of the
offset pattern, tried immediately after a literal `GMT`; the optional
minutes group can always match empty, so no backtracking arises. -/
def matchSignedOffset : List Char → Option Int
  | s :: d1 :: rest =>
    if s = '+' ∨ s = '-' then
      if d1.isDigit then
        let sign : Int := if s = '-' then -1 else 1
        match rest with
        | d2 :: rest2 =>
          if d2.isDigit then
            some (sign * ((10 * digitVal d1 + digitVal d2) * 60 + readOffsetMinutes rest2))
          else
            some (sign * (digitVal d1 * 60 + readOffsetMinutes rest))
        | [] => some (sign * (digitVal d1 * 60))
      else none
    else none
  | _ => none

/-- First match of the `GMT` offset pattern in the value, scanning left to
right, returning the signed offset in minutes. -/
def findGMTOffset : List Char → Option Int
  | [] => none
  | c :: rest =>
    match c, rest with
    | 'G', 'M' :: 'T' :: tail =>
      (match matchSignedOffset tail with
       | some v => some v
       | none => findGMTOffset rest)
    | _, _ => findGMTOffset rest

/-- `parseOffset`: extract the signed minute offset from an Intl
`timeZoneName` value such as "GMT+3" or "GMT-04:30"; when the pattern does
not occur the offset degrades to 0. -/
def parseOffset (value : List Char) : Int :=
  match findGMTOffset value with
  | some v => v
  | none => 0

/-- `getTimeZoneOffsetMinutes`: format the instant in the zone and parse
the `timeZoneName` part; a missing part degrades to 0. -/
def getTimeZoneOffsetMinutes (date : Int) (timeZone : TimeZone) : Int :=
  match timeZone date with
  | none => 0
  | some value => parseOffset value

/-- The `{start, end}` pair returned by `getUtcRangeForDate` (`end` being a
Lean keyword, the field is named `stop`). -/
structure UtcRange where
  start : Int
  stop : Int
deriving DecidableEq

def msPerDay : Int := 86400000

/-- `getUtcRangeForDate`: `utcBase` is UTC midnight of the civil date
(epoch-day `date`), the offset is sampled at `utcBase`, and the range is
`[utcBase - offset, utcBase - offset + 24h)`. -/
def getUtcRangeForDate (date : Int) (timeZone : TimeZone) : UtcRange :=
  let utcBase := date * msPerDay
  let offsetMinutes := getTimeZoneOffsetMinutes utcBase timeZone
  let start := utcBase - offsetMinutes * 60000
  { start := start, stop := start + 24 * 60 * 60000 }

/-- `formatDateInTimeZone`: the civil date the instant falls on in the
zone, i.e. the floor-division day number of the instant shifted by the
zone's offset at that instant (the Intl `en-CA` rendering). -/
def formatDateInTimeZone (date : Int) (timeZone : TimeZone) : Int :=
  Int.fdiv (date + getTimeZoneOffsetMinutes date timeZone * 60000) msPerDay

/-- A zone behaving like Pacific/Auckland around its 2025 spring-forward:
offset +12 h before 2025-09-27T14:00Z (instant 1758981600000, which is
02:00 local on 2025-09-28), +13 h from that instant on. -/
def aucklandSept2025 : TimeZone :=
  fun t => if t < 1758981600000 then some "GMT+12".toList else some "GMT+13".toList

/-- C4 counterexample: for the civil date 2025-09-28 (epoch day 20359) in a
zone behaving like Pacific/Auckland (whose DST starts at 02:00 local that
day), formatting the start of the computed UTC range back in the same zone
yields 2025-09-27 (epoch day 20358), not the input date. -/
theorem getUtcRange_roundtrip_cex :
    formatDateInTimeZone (getUtcRangeForDate 20359 aucklandSept2025).start
        aucklandSept2025 = 20358
    ∧ formatDateInTimeZone (getUtcRangeForDate 20359 aucklandSept2025).start
        aucklandSept2025 ≠ 20359 := by
  constructor <;> decide

/-- C4 (amended): whenever the zone's offset at the computed range start
equals its offset at UTC midnight of the target civil date — in particular
for every fixed-offset zone — formatting the start back in the same zone
reproduces the input civil date; and unconditionally the range end is
exactly 24 hours after its start, the end instant itself lying outside the
half-open range. -/
theorem getUtcRange_roundtrip (date : Int) (tz : TimeZone)
    (h : getTimeZoneOffsetMinutes (getUtcRangeForDate date tz).start tz
         = getTimeZoneOffsetMinutes (date * msPerDay) tz) :
    formatDateInTimeZone (getUtcRangeForDate date tz).start tz = date
    ∧ (getUtcRangeForDate date tz).stop
        = (getUtcRangeForDate date tz).start + msPerDay := by
  unfold getUtcRangeForDate at h
  simp only at h
  unfold formatDateInTimeZone getUtcRangeForDate
  simp only
  refine ⟨?_, by norm_num [msPerDay]⟩
  rw [h]
  have hcancel : date * msPerDay - getTimeZoneOffsetMinutes (date * msPerDay) tz * 60000
      + getTimeZoneOffsetMinutes (date * msPerDay) tz * 60000 = date * msPerDay := by
    ring
  rw [hcancel]
  rw [Int.mul_fdiv_cancel _ (by norm_num [msPerDay])]

/-- Concrete instantiation of `getUtcRange_roundtrip` at the fixed-offset
zone GMT+3 and epoch day 3, discharging its offset-agreement hypothesis. -/
theorem getUtcRange_roundtrip_witness :
    formatDateInTimeZone (getUtcRangeForDate 3 (fun _ => some "GMT+3".toList)).start
        (fun _ => some "GMT+3".toList) = 3
    ∧ (getUtcRangeForDate 3 (fun _ => some "GMT+3".toList)).stop
        = (getUtcRangeForDate 3 (fun _ => some "GMT+3".toList)).start + msPerDay :=
  getUtcRange_roundtrip 3 (fun _ => some "GMT+3".toList) (by decide)

/-- A recognized zone whose formatter never renders a usable `GMT` offset
name — the part is absent or its value nowhere matches the offset pattern
(as for the plain value "GMT") — resolves to offset 0 at every instant,
and the range computed for it is the plain UTC day range. -/
theorem offset_degrades_of_unusable_part (tz : TimeZone)
    (h : ∀ u : Int, tz u = none ∨ ∃ v, tz u = some v ∧ findGMTOffset v = none) :
    (∀ t : Int, getTimeZoneOffsetMinutes t tz = 0)
    ∧ ∀ date : Int, getUtcRangeForDate date tz
        = { start := date * msPerDay, stop := date * msPerDay + msPerDay } := by
  have hz : ∀ t : Int, getTimeZoneOffsetMinutes t tz = 0 := by
    intro t
    rcases h t with h0 | ⟨v, hv, hm⟩
    · simp [getTimeZoneOffsetMinutes, h0]
    · simp [getTimeZoneOffsetMinutes, hv, parseOffset, hm]
  refine ⟨hz, fun date => ?_⟩
  unfold getUtcRangeForDate
  simp only [hz]
  norm_num [msPerDay]

/-- The platform's timezone-identifier lookup: an IANA-style database
mapping an identifier string to the recognized zone's formatter, `none`
for an unrecognized identifier — the case in which the
`Intl.DateTimeFormat` constructor throws a RangeError. -/
def ZoneDatabase : Type := String → Option TimeZone

/-- `getTimeZoneOffsetMinutes` with the platform constructor's failure
kept: `new Intl.DateTimeFormat('en-US', { timeZone, ... })` throws a
RangeError for an unrecognized identifier, and nothing in the function
catches it, so the error propagates (`Except.error`); for a recognized
zone, offset resolution proceeds as `getTimeZoneOffsetMinutes`. -/
def getTimeZoneOffsetMinutesExc (date : Int) (db : ZoneDatabase)
    (timeZone : String) : Except String Int :=
  match db timeZone with
  | none => .error "RangeError: invalid time zone"
  | some tz => .ok (getTimeZoneOffsetMinutes date tz)

/-- `getUtcRangeForDate` with the constructor failure kept: the RangeError
raised inside the offset lookup propagates uncaught out of the range
computation (and on to the route's 500 handler). -/
def getUtcRangeForDateExc (date : Int) (db : ZoneDatabase)
    (timeZone : String) : Except String UtcRange :=
  match db timeZone with
  | none => .error "RangeError: invalid time zone"
  | some tz => .ok (getUtcRangeForDate date tz)

/-- A platform database recognizing only the identifier "UTC", whose
formatter renders the offset-less part value "GMT" at every instant. -/
def utcOnlyZoneDb : ZoneDatabase :=
  fun s => if s = "UTC" then some (fun _ => some "GMT".toList) else none

/-- C5 counterexample: for the unrecognized identifier "Mars/Olympus" the
`Intl.DateTimeFormat` constructor inside `getTimeZoneOffsetMinutes` throws
a RangeError that nothing in the utility catches, so the range computation
fails the request instead of returning a result — offset resolution never
reaches its degrade-to-zero branches. -/
theorem unrecognizedZone_fails_cex :
    getUtcRangeForDateExc 20359 utcOnlyZoneDb "Mars/Olympus"
      = .error "RangeError: invalid time zone" := rfl

/-- C5 (amended): an unrecognized timezone identifier makes the platform
formatter constructor throw a RangeError that the utility does not catch,
failing the request; the degrade-to-zero-offset path applies instead to
recognized zones whose rendered `timeZoneName` part is absent or carries
no parsable `GMT` offset (such as the plain value "GMT"): for those the
offset resolves to 0 (UTC) at every instant and the range computation
still returns a result, the plain UTC day range. -/
theorem zoneOffset_degrade_policy (db : ZoneDatabase) (tzName : String)
    (date t : Int) :
    (db tzName = none →
      getTimeZoneOffsetMinutesExc t db tzName
          = .error "RangeError: invalid time zone"
      ∧ getUtcRangeForDateExc date db tzName
          = .error "RangeError: invalid time zone")
    ∧ ∀ tz : TimeZone, db tzName = some tz →
        (∀ u : Int, tz u = none ∨ ∃ v, tz u = some v ∧ findGMTOffset v = none) →
        getTimeZoneOffsetMinutesExc t db tzName = .ok 0
        ∧ getUtcRangeForDateExc date db tzName
            = .ok { start := date * msPerDay, stop := date * msPerDay + msPerDay } := by
  constructor
  · intro h
    constructor
    · simp [getTimeZoneOffsetMinutesExc, h]
    · simp [getUtcRangeForDateExc, h]
  · intro tz htz hnone
    have hd := offset_degrades_of_unusable_part tz hnone
    constructor
    · simp [getTimeZoneOffsetMinutesExc, htz, hd.1 t]
    · simp [getUtcRangeForDateExc, htz, hd.2 date]

/-- Concrete instantiation of `zoneOffset_degrade_policy`: the unrecognized
identifier "Mars/Olympus" fails the computation, while the recognized
identifier "UTC" — whose formatter renders the offset-less value "GMT" —
degrades to offset 0 and returns the plain UTC day range. -/
theorem zoneOffset_degrade_policy_witness :
    getUtcRangeForDateExc 2 utcOnlyZoneDb "Mars/Olympus"
      = .error "RangeError: invalid time zone"
    ∧ getTimeZoneOffsetMinutesExc 0 utcOnlyZoneDb "UTC" = .ok 0
    ∧ getUtcRangeForDateExc 2 utcOnlyZoneDb "UTC"
        = .ok { start := 2 * msPerDay, stop := 2 * msPerDay + msPerDay } := by
  have h1 := (zoneOffset_degrade_policy utcOnlyZoneDb "Mars/Olympus" 2 0).1 rfl
  have h2 := (zoneOffset_degrade_policy utcOnlyZoneDb "UTC" 2 0).2
      (fun _ => some "GMT".toList) rfl
      (fun _ => Or.inr ⟨"GMT".toList, rfl, by decide⟩)
  exact ⟨h1.2, h2.1, h2.2⟩

/-! ## Nutrition-target calculator (userInfoService.ts) -/

inductive Gender
  | male
  | female
  | other
deriving DecidableEq

inductive ActivityLevel
  | sedentary
  | light
  | moderate
  | active
  | very_active
deriving DecidableEq

inductive Goal
  | lose
  | maintain
  | gain
deriving DecidableEq

/-- The fields of `UserInfo` relevant to `calculateDailyTargets`, plus a
few it never reads (for the noninterference statement).  Numeric fields
are rationals; `birth_date` is the parsed epoch-millisecond instant of the
birth-date string (`none` models both a missing field and the
`Number.isNaN` guard for an unparseable one). -/
structure UserInfo where
  id : String
  name : Option String := none
  email : Option String := none
  gender : Option Gender := none
  birth_date : Option Int := none
  height_cm : Option ℚ := none
  current_weight_kg : Option ℚ := none
  target_weight_kg : Option ℚ := none
  activity_level : Option ActivityLevel := none
  goal : Option Goal := none
deriving DecidableEq

structure DailyTargets where
  calories_goal : Int
  protein_goal_g : Int
  carbs_goal_g : Int
  fat_goal_g : Int
deriving DecidableEq

/-- JS `x || d` on an optional number: `undefined`, `null` and `0` all fall
back to the default. -/
def orDefaultQ (v : Option ℚ) (d : ℚ) : ℚ :=
  match v with
  | none => d
  | some x => if x = 0 then d else x

def orDefaultI (v : Option Int) (d : Int) : Int :=
  match v with
  | none => d
  | some x => if x = 0 then d else x

/-- Milliseconds in a Julian year, `365.25 * 24 * 60 * 60 * 1000`. -/
def msPerYear : Int := 31557600000

/-- `getAge`: `Math.floor((Date.now() - birth) / (365.25*24*60*60*1000))`,
null when the birth date is missing or unparseable.  The clock reading
`Date.now()` is made the explicit parameter `now`. -/
def getAge (now : Int) (birthDate : Option Int) : Option Int :=
  birthDate.map (fun b => Int.fdiv (now - b) msPerYear)

def activityMultiplier : ActivityLevel → ℚ
  | .sedentary => 1.2
  | .light => 1.375
  | .moderate => 1.55
  | .active => 1.725
  | .very_active => 1.9

/-- JS `Math.round`: round half toward positive infinity. -/
def jsRound (x : ℚ) : Int := ⌊x + 1/2⌋

/-- `calculateDailyTargets`.  Missing (or JS-falsy 0) weight and height
default to 70 kg and 170 cm, a missing birth date — or a computed age of 0,
`getAge(...) || 30` — defaults to 30 years, a missing gender to `other`
and a missing activity level to `sedentary`; the Mifflin–St Jeor base rate
with the gender offset (+5 / −161 / −78) is scaled by the activity
multiplier, adjusted ±15 % for lose/gain, rounded and floored at 1200 kcal,
then split 30 % / 40 % / 30 % by calories at 4/4/9 kcal per gram.  The
clock reading used by `getAge` is the explicit parameter `now`; IEEE double
arithmetic is modelled exactly over ℚ. -/
def calculateDailyTargets (now : Int) (user : UserInfo) : DailyTargets :=
  let weight := orDefaultQ user.current_weight_kg 70
  let height := orDefaultQ user.height_cm 170
  let age : Int := orDefaultI (getAge now user.birth_date) 30
  let bmrBase : ℚ := 10 * weight + 6.25 * height - 5 * (age : ℚ)
  let bmr : ℚ :=
    match user.gender.getD .other with
    | .male => bmrBase + 5
    | .female => bmrBase - 161
    | .other => bmrBase - 78
  let afterActivity : ℚ := bmr * activityMultiplier (user.activity_level.getD .sedentary)
  let calories : ℚ :=
    match user.goal with
    | some .lose => afterActivity * 0.85
    | some .gain => afterActivity * 1.15
    | _ => afterActivity
  let roundedCalories : Int := max 1200 (jsRound calories)
  let proteinCalories : ℚ := (roundedCalories : ℚ) * 0.3
  let carbsCalories : ℚ := (roundedCalories : ℚ) * 0.4
  let fatCalories : ℚ := (roundedCalories : ℚ) * 0.3
  { calories_goal := roundedCalories
    protein_goal_g := jsRound (proteinCalories / 4)
    carbs_goal_g := jsRound (carbsCalories / 4)
    fat_goal_g := jsRound (fatCalories / 9) }

theorem jsRound_le (x : ℚ) : (jsRound x : ℚ) ≤ x + 1/2 := Int.floor_le _

theorem lt_jsRound (x : ℚ) : x - 1/2 < (jsRound x : ℚ) := by
  have h := Int.sub_one_lt_floor (x + 1/2)
  unfold jsRound
  linarith

/-- Reconverting the three rounded macro-gram values at 4/4/9 kcal per gram
reconstructs any calorie total within 9 kcal. -/
theorem macro_split_tolerance (C : Int) :
    |4 * jsRound ((C : ℚ) * 0.3 / 4) + 4 * jsRound ((C : ℚ) * 0.4 / 4)
      + 9 * jsRound ((C : ℚ) * 0.3 / 9) - C| ≤ 9 := by
  have h1l := lt_jsRound ((C : ℚ) * 0.3 / 4)
  have h1u := jsRound_le ((C : ℚ) * 0.3 / 4)
  have h2l := lt_jsRound ((C : ℚ) * 0.4 / 4)
  have h2u := jsRound_le ((C : ℚ) * 0.4 / 4)
  have h3l := lt_jsRound ((C : ℚ) * 0.3 / 9)
  have h3u := jsRound_le ((C : ℚ) * 0.3 / 9)
  have key : |((4 * jsRound ((C : ℚ) * 0.3 / 4) + 4 * jsRound ((C : ℚ) * 0.4 / 4)
      + 9 * jsRound ((C : ℚ) * 0.3 / 9) - C : Int) : ℚ)| ≤ 9 := by
    rw [abs_le]
    constructor <;> push_cast <;> linarith
  exact_mod_cast key

/-- C6: for every profile (all activity levels and goals, any or no
biometrics) and every clock reading, the calculator returns a calorie goal
of at least 1200 kcal, and the macro grams converted back at 4/4/9 kcal per
gram reconstruct the calorie goal within the rounding tolerance of 9 kcal
(three roundings of at most half a gram each). -/
theorem calculateDailyTargets_floor_and_split (now : Int) (user : UserInfo) :
    1200 ≤ (calculateDailyTargets now user).calories_goal
    ∧ |4 * (calculateDailyTargets now user).protein_goal_g
        + 4 * (calculateDailyTargets now user).carbs_goal_g
        + 9 * (calculateDailyTargets now user).fat_goal_g
        - (calculateDailyTargets now user).calories_goal| ≤ 9 := by
  unfold calculateDailyTargets
  simp only
  exact ⟨le_max_left _ _, macro_split_tolerance _⟩

def userBornAtEpoch : UserInfo := { id := "u1", birth_date := some 0 }

/-- C7 counterexample: the very same profile evaluated at two clock
readings 30 and 31 Julian years after the birth instant yields different
targets (1841 vs 1835 kcal): `calculateDailyTargets` reads the wall clock
through `Date.now()` inside `getAge`, so it is not a deterministic function
of the listed profile inputs alone. -/
theorem calculateDailyTargets_clock_cex :
    calculateDailyTargets (30 * msPerYear) userBornAtEpoch
      ≠ calculateDailyTargets (31 * msPerYear) userBornAtEpoch
    ∧ (calculateDailyTargets (30 * msPerYear) userBornAtEpoch).calories_goal = 1841
    ∧ (calculateDailyTargets (31 * msPerYear) userBornAtEpoch).calories_goal = 1835 := by
  have hfd30 : Int.fdiv (30 * msPerYear) msPerYear = 30 := by decide
  have hfd31 : Int.fdiv (31 * msPerYear) msPerYear = 31 := by decide
  have c30 : (calculateDailyTargets (30 * msPerYear) userBornAtEpoch).calories_goal
      = 1841 := by
    simp [calculateDailyTargets, userBornAtEpoch, getAge, orDefaultI, orDefaultQ,
      activityMultiplier, jsRound, hfd30]
    norm_num
  have c31 : (calculateDailyTargets (31 * msPerYear) userBornAtEpoch).calories_goal
      = 1835 := by
    simp [calculateDailyTargets, userBornAtEpoch, getAge, orDefaultI, orDefaultQ,
      activityMultiplier, jsRound, hfd31]
    norm_num
  refine ⟨?_, c30, c31⟩
  intro h
  have hcg := congrArg DailyTargets.calories_goal h
  rw [c30, c31] at hcg
  exact absurd hcg (by norm_num)

/-- C7 (amended): at any fixed clock reading, `calculateDailyTargets` is a
pure function of exactly (weight, height, birth date, gender, activity
level, goal) — two profiles agreeing on those six fields yield identical
targets whatever their other fields hold — and missing biometric inputs
behave as the fixed defaults 70 kg, 170 cm and 30 years. -/
theorem calculateDailyTargets_pure (now : Int) (u1 u2 : UserInfo)
    (hw : u1.current_weight_kg = u2.current_weight_kg)
    (hh : u1.height_cm = u2.height_cm)
    (hb : u1.birth_date = u2.birth_date)
    (hg : u1.gender = u2.gender)
    (ha : u1.activity_level = u2.activity_level)
    (hgoal : u1.goal = u2.goal) :
    calculateDailyTargets now u1 = calculateDailyTargets now u2
    ∧ (u1.current_weight_kg = none → u1.height_cm = none → u1.birth_date = none →
        calculateDailyTargets now u1
          = calculateDailyTargets now
              { u1 with current_weight_kg := some 70, height_cm := some 170,
                        birth_date := some (now - 30 * msPerYear) }) := by
  constructor
  · unfold calculateDailyTargets
    rw [hw, hh, hb, hg, ha, hgoal]
  · intro h1 h2 h3
    have hfd : (30 * msPerYear).fdiv msPerYear = 30 := by decide
    unfold calculateDailyTargets
    simp [h1, h2, h3, getAge, orDefaultQ, orDefaultI, ite_self, sub_sub_cancel, hfd]

/-- Concrete instantiation of `calculateDailyTargets_pure`: profiles
differing only in name agree, and the empty-biometrics profile matches the
explicit 70 kg / 170 cm / 30-year profile. -/
theorem calculateDailyTargets_pure_witness :
    calculateDailyTargets 0 { id := "a", name := some "Ali" }
      = calculateDailyTargets 0 { id := "b" }
    ∧ calculateDailyTargets 0 { id := "a", name := some "Ali" }
        = calculateDailyTargets 0
            { id := "a", name := some "Ali", current_weight_kg := some 70,
              height_cm := some 170, birth_date := some (0 - 30 * msPerYear) } := by
  have h := calculateDailyTargets_pure 0 { id := "a", name := some "Ali" }
      { id := "b" } rfl rfl rfl rfl rfl rfl
  exact ⟨h.1, h.2 rfl rfl rfl⟩

/-! ## Progress service: daily-stats increments (progressService.ts) -/

/-- A `daily_stats` document. -/
structure DailyStats where
  id : String
  user_id : String
  date : String
  calories_goal : ℚ
  calories_consumed : ℚ
  protein_goal_g : ℚ
  protein_consumed_g : ℚ
  carbs_goal_g : ℚ
  carbs_consumed_g : ℚ
  fat_goal_g : ℚ
  fat_consumed_g : ℚ
  water_ml : ℚ
  steps : ℚ
deriving DecidableEq

/-- The part of a `Partial<DailyStats>` deltas object that
`incrementDailyStats` reads: the six consumed fields, each optional
(`deltas.field || 0`). -/
structure StatDeltas where
  calories_consumed : Option ℚ := none
  protein_consumed_g : Option ℚ := none
  carbs_consumed_g : Option ℚ := none
  fat_consumed_g : Option ℚ := none
  water_ml : Option ℚ := none
  steps : Option ℚ := none
deriving DecidableEq

/-- `incrementDailyStats` acting on the fetched-or-created record `daily`:
the `updated` object holds exactly the six consumed fields, each the prior
value plus `deltas.field || 0`; both the store write
(`.update(updated)`) and the returned `{ ...daily, ...updated }` leave
every other field of the record as it was. -/
def incrementDailyStats (daily : DailyStats) (deltas : StatDeltas) : DailyStats :=
  { daily with
    calories_consumed := daily.calories_consumed + orDefaultQ deltas.calories_consumed 0
    protein_consumed_g := daily.protein_consumed_g + orDefaultQ deltas.protein_consumed_g 0
    carbs_consumed_g := daily.carbs_consumed_g + orDefaultQ deltas.carbs_consumed_g 0
    fat_consumed_g := daily.fat_consumed_g + orDefaultQ deltas.fat_consumed_g 0
    water_ml := daily.water_ml + orDefaultQ deltas.water_ml 0
    steps := daily.steps + orDefaultQ deltas.steps 0 }

/-- A concrete mid-day daily-stats record. -/
def statsAfternoon : DailyStats :=
  { id := "s1", user_id := "u1", date := "2026-10-12",
    calories_goal := 2000, calories_consumed := 900,
    protein_goal_g := 150, protein_consumed_g := 60,
    carbs_goal_g := 200, carbs_consumed_g := 90,
    fat_goal_g := 66, fat_consumed_g := 30,
    water_ml := 500, steps := 4000 }

/-- C9 counterexample: `incrementDailyStats` adds whatever deltas it is
handed; a negative water delta — which the water route forwards unvalidated
from the request body, rejecting only JS-falsy amounts — strictly decreases
the stored consumed value, from 500 ml to 300 ml here. -/
theorem incrementDailyStats_negative_delta_cex :
    (incrementDailyStats statsAfternoon { water_ml := some (-200) }).water_ml = 300
    ∧ (incrementDailyStats statsAfternoon { water_ml := some (-200) }).water_ml
        < statsAfternoon.water_ml := by
  constructor <;> norm_num [incrementDailyStats, statsAfternoon, orDefaultQ]

/-- C9 (amended): provided every supplied delta is non-negative — true of
the intended meal-confirmation and water-logging callers, though nothing in
the code enforces it — each consumed field after `incrementDailyStats` is
at least its prior value: the record is mutated by non-negative additions
only. -/
theorem incrementDailyStats_monotone (daily : DailyStats) (deltas : StatDeltas)
    (hc : 0 ≤ orDefaultQ deltas.calories_consumed 0)
    (hp : 0 ≤ orDefaultQ deltas.protein_consumed_g 0)
    (hcb : 0 ≤ orDefaultQ deltas.carbs_consumed_g 0)
    (hf : 0 ≤ orDefaultQ deltas.fat_consumed_g 0)
    (hw : 0 ≤ orDefaultQ deltas.water_ml 0)
    (hs : 0 ≤ orDefaultQ deltas.steps 0) :
    daily.calories_consumed ≤ (incrementDailyStats daily deltas).calories_consumed
    ∧ daily.protein_consumed_g ≤ (incrementDailyStats daily deltas).protein_consumed_g
    ∧ daily.carbs_consumed_g ≤ (incrementDailyStats daily deltas).carbs_consumed_g
    ∧ daily.fat_consumed_g ≤ (incrementDailyStats daily deltas).fat_consumed_g
    ∧ daily.water_ml ≤ (incrementDailyStats daily deltas).water_ml
    ∧ daily.steps ≤ (incrementDailyStats daily deltas).steps := by
  unfold incrementDailyStats
  refine ⟨?_, ?_, ?_, ?_, ?_, ?_⟩ <;> simp <;> linarith

/-- Concrete instantiation of `incrementDailyStats_monotone` at a meal
confirmation adding 500 kcal of consumption. -/
theorem incrementDailyStats_monotone_witness :
    statsAfternoon.calories_consumed
      ≤ (incrementDailyStats statsAfternoon
          { calories_consumed := some 500 }).calories_consumed :=
  (incrementDailyStats_monotone statsAfternoon { calories_consumed := some 500 }
      (by norm_num [orDefaultQ]) (by norm_num [orDefaultQ]) (by norm_num [orDefaultQ])
      (by norm_num [orDefaultQ]) (by norm_num [orDefaultQ]) (by norm_num [orDefaultQ])).1

/-- C10: `incrementDailyStats` writes exactly the six consumed fields —
each becomes its prior value plus the (zero-defaulted) delta — while the
record's id, user id, date and all four goal fields are unchanged. -/
theorem incrementDailyStats_frame (daily : DailyStats) (deltas : StatDeltas) :
    ((incrementDailyStats daily deltas).calories_consumed
        = daily.calories_consumed + orDefaultQ deltas.calories_consumed 0)
    ∧ ((incrementDailyStats daily deltas).protein_consumed_g
        = daily.protein_consumed_g + orDefaultQ deltas.protein_consumed_g 0)
    ∧ ((incrementDailyStats daily deltas).carbs_consumed_g
        = daily.carbs_consumed_g + orDefaultQ deltas.carbs_consumed_g 0)
    ∧ ((incrementDailyStats daily deltas).fat_consumed_g
        = daily.fat_consumed_g + orDefaultQ deltas.fat_consumed_g 0)
    ∧ ((incrementDailyStats daily deltas).water_ml
        = daily.water_ml + orDefaultQ deltas.water_ml 0)
    ∧ ((incrementDailyStats daily deltas).steps
        = daily.steps + orDefaultQ deltas.steps 0)
    ∧ (incrementDailyStats daily deltas).id = daily.id
    ∧ (incrementDailyStats daily deltas).user_id = daily.user_id
    ∧ (incrementDailyStats daily deltas).date = daily.date
    ∧ (incrementDailyStats daily deltas).calories_goal = daily.calories_goal
    ∧ (incrementDailyStats daily deltas).protein_goal_g = daily.protein_goal_g
    ∧ (incrementDailyStats daily deltas).carbs_goal_g = daily.carbs_goal_g
    ∧ (incrementDailyStats daily deltas).fat_goal_g = daily.fat_goal_g :=
  ⟨rfl, rfl, rfl, rfl, rfl, rfl, rfl, rfl, rfl, rfl, rfl, rfl, rfl⟩

/-! ## Memory-summary maintenance (maybeUpdateSummary, chatService) -/

structure ChatMsg where
  role : String
  content : String
deriving DecidableEq

/-- The `"<role-label>: <content>"` rendering joined with newlines, shared
by `maybeUpdateSummary` and context assembly. -/
def renderMessages (msgs : List ChatMsg) : String :=
  String.intercalate "\n"
    (msgs.map (fun m =>
      (if m.role = "assistant" then "Koç" else "Kullanıcı") ++ ": " ++ m.content))

/-- A `chat_memory_summaries` document. -/
structure MemorySummaryRec where
  id : String
  user_id : String
  summary : String
deriving DecidableEq

/-- The observable outcome of one `maybeUpdateSummary` run: how many
summarizer calls were made, how many writes to the memory-summary
collection happened, and the user's resulting record (`none` when absent). -/
structure SummaryOutcome where
  summarizerCalls : Nat
  upserts : Nat
  record : Option MemorySummaryRec
deriving DecidableEq

/-- `maybeUpdateSummary`.  `msgs` holds the session's messages ordered
oldest first; the store query takes the 50 most recent
(`orderBy created_at desc, limit 50`, i.e. `msgs.reverse.take 50`) and the
subsequent `.reverse()` restores oldest-first order.  `summarizer` is the
`generateSummary` oracle, `none` modelling its null result (missing
credential or upstream failure); `existing` is the user's current
memory-summary record (the `limit(1)` lookup) and `freshId` the id the
store would mint on `add`.  The existing record is updated in place
(`doc(existingSummary.id).set(payload, merge)`); otherwise a new document
is added. -/
def maybeUpdateSummary (userId : String) (msgs : List ChatMsg)
    (summarizer : String → Option String)
    (existing : Option MemorySummaryRec) (freshId : String) : SummaryOutcome :=
  if (msgs.reverse.take 50).length < 50 then
    { summarizerCalls := 0, upserts := 0, record := existing }
  else
    match summarizer (renderMessages (msgs.reverse.take 50).reverse) with
    | none => { summarizerCalls := 1, upserts := 0, record := existing }
    | some summaryText =>
      match existing with
      | some e =>
        { summarizerCalls := 1, upserts := 1,
          record := some { id := e.id, user_id := userId, summary := summaryText } }
      | none =>
        { summarizerCalls := 1, upserts := 1,
          record := some { id := freshId, user_id := userId, summary := summaryText } }

/-- C8 counterexample: with exactly 50 messages in the session but a
summarizer yielding null (missing credential or upstream failure),
`maybeUpdateSummary` makes its one summarizer call yet performs zero
upserts, refuting "exactly one upsert whenever at least 50 messages
exist". -/
theorem maybeUpdateSummary_null_summary_cex :
    (List.replicate 50 (⟨"user", "selam"⟩ : ChatMsg)).length = 50
    ∧ (maybeUpdateSummary "u1" (List.replicate 50 ⟨"user", "selam"⟩)
        (fun _ => none) none "m1").summarizerCalls = 1
    ∧ (maybeUpdateSummary "u1" (List.replicate 50 ⟨"user", "selam"⟩)
        (fun _ => none) none "m1").upserts = 0 := by
  refine ⟨by simp, ?_, ?_⟩ <;>
    · unfold maybeUpdateSummary
      rw [if_neg (by simp)]

/-- C8 (amended): with fewer than 50 messages in the session the run is a
no-op — no summarizer call, no upsert; with at least 50 it makes exactly
one summarizer call on the oldest-first rendering of the 50 most recent
messages, and when the summarizer returns a digest it performs exactly one
upsert that replaces the user's single record in place (keeping the
existing record's id, or minting one fresh id when none existed) — while a
null summarizer result leaves the store untouched with zero upserts. -/
theorem maybeUpdateSummary_spec (userId : String) (msgs : List ChatMsg)
    (summarizer : String → Option String) (existing : Option MemorySummaryRec)
    (freshId : String) :
    (msgs.length < 50 →
      maybeUpdateSummary userId msgs summarizer existing freshId
        = { summarizerCalls := 0, upserts := 0, record := existing })
    ∧ (50 ≤ msgs.length →
        (maybeUpdateSummary userId msgs summarizer existing freshId).summarizerCalls = 1
        ∧ (summarizer (renderMessages (msgs.reverse.take 50).reverse) = none →
            (maybeUpdateSummary userId msgs summarizer existing freshId).upserts = 0
            ∧ (maybeUpdateSummary userId msgs summarizer existing freshId).record
                = existing)
        ∧ ∀ t, summarizer (renderMessages (msgs.reverse.take 50).reverse) = some t →
            (maybeUpdateSummary userId msgs summarizer existing freshId).upserts = 1
            ∧ (maybeUpdateSummary userId msgs summarizer existing freshId).record
                = some { id := (match existing with | some e => e.id | none => freshId),
                         user_id := userId, summary := t }) := by
  have hlen : (msgs.reverse.take 50).length = min 50 msgs.length := by
    simp [List.length_take]
  constructor
  · intro h
    unfold maybeUpdateSummary
    rw [if_pos (by rw [hlen]; omega)]
  · intro h
    have hcond : ¬ (msgs.reverse.take 50).length < 50 := by rw [hlen]; omega
    refine ⟨?_, ?_, ?_⟩
    · unfold maybeUpdateSummary
      rw [if_neg hcond]
      rcases hs : summarizer (renderMessages (msgs.reverse.take 50).reverse) with _ | t
      · rfl
      · rcases existing with _ | e <;> rfl
    · intro hs
      unfold maybeUpdateSummary
      rw [if_neg hcond, hs]
      exact ⟨rfl, rfl⟩
    · intro t hs
      unfold maybeUpdateSummary
      rw [if_neg hcond, hs]
      rcases existing with _ | e <;> exact ⟨rfl, rfl⟩

/-- Concrete instantiation of `maybeUpdateSummary_spec`: a one-message
session is a no-op, and a 50-message session with a successful summarizer
overwrites the existing record "m0" in place with the fresh digest. -/
theorem maybeUpdateSummary_spec_witness :
    maybeUpdateSummary "u1" [⟨"user", "selam"⟩] (fun _ => some "özet") none "m1"
      = { summarizerCalls := 0, upserts := 0, record := none }
    ∧ (maybeUpdateSummary "u1" (List.replicate 50 ⟨"user", "selam"⟩)
        (fun _ => some "özet") (some ⟨"m0", "u1", "eski"⟩) "m1").upserts = 1
    ∧ (maybeUpdateSummary "u1" (List.replicate 50 ⟨"user", "selam"⟩)
        (fun _ => some "özet") (some ⟨"m0", "u1", "eski"⟩) "m1").record
        = some ⟨"m0", "u1", "özet"⟩ := by
  have h1 := (maybeUpdateSummary_spec "u1" [⟨"user", "selam"⟩]
      (fun _ => some "özet") none "m1").1 (by simp)
  have h2 := ((maybeUpdateSummary_spec "u1" (List.replicate 50 ⟨"user", "selam"⟩)
      (fun _ => some "özet") (some ⟨"m0", "u1", "eski"⟩) "m1").2
        (by simp)).2.2 "özet" rfl
  exact ⟨h1, h2.1, h2.2⟩

/-! ## Streaming chat orchestrator: the `run()` task of
`handleChatMessageStream` (chatService)

The websocket transport, the document store and the model client are
abstracted to the task's observable outcome: the chunk payloads pushed
through `sendChunk`, the assistant content handed to `finalizeAndPersist`
(the shared routine that persists the assistant message, touches the
session's `updated_at` and triggers memory-summary maintenance), the
number of times that routine ran, and whether the task instead ended in a
rejected promise.  The refusal decision `shouldRefuseCoachRequest(message)`
enters as a boolean; the stream client as the list of deltas it delivered
through `onDelta` before either resolving (`StreamOutcome.ok` carrying the
resolved accumulated text) or rejecting (`StreamOutcome.err`); the
blocking fallback `generateCoachResponse` as an `Option String`, `none`
modelling a throw. -/

/-- One payload passed to `sendChunk` (the transport merges in
`chatId`/`messageId`). -/
structure ChunkPayload where
  delta : Option String := none
  content : Option String := none
  isFinal : Bool := false
  error : Option String := none
deriving DecidableEq

inductive StreamOutcome
  | ok (resolved : String)
  | err
deriving DecidableEq

/-- Observable outcome of one `run()` invocation. -/
structure RunResult where
  chunks : List ChunkPayload
  persisted : Option String
  finalizeCalls : Nat
  rejected : Bool
deriving DecidableEq

def COACH_REFUSAL_MESSAGE : String :=
  "Ben bir FitCal AI kalori koçuyum, bu isteği yerine getiremiyorum."

/-- `runStream`, the deferred task returned by `handleChatMessageStream`.
`sentAny` is true exactly when `deltas` is non-empty; after a failed
stream, `latestText` is the concatenation of the delivered deltas (each
`onDelta` call set it to the client's accumulated `fullText`), and after a
clean stream it is the resolved value, on which `latestText || ''` is the
identity. -/
def runStream (refuse : Bool) (deltas : List String)
    (outcome : StreamOutcome) (fallback : Option String) : RunResult :=
  if refuse then
    { chunks := [{ delta := some COACH_REFUSAL_MESSAGE, isFinal := true,
                   content := some COACH_REFUSAL_MESSAGE }],
      persisted := some COACH_REFUSAL_MESSAGE, finalizeCalls := 1,
      rejected := false }
  else
    let deltaChunks := deltas.map fun d => ({ delta := some d } : ChunkPayload)
    match outcome with
    | .ok resolved =>
      { chunks := deltaChunks ++ [{ content := some resolved, isFinal := true }],
        persisted := some resolved, finalizeCalls := 1, rejected := false }
    | .err =>
      if deltas = [] then
        match fallback with
        | some fb =>
          { chunks := deltaChunks
              ++ [{ content := some fb, delta := some fb, isFinal := true }],
            persisted := some fb, finalizeCalls := 1, rejected := false }
        | none =>
          { chunks := deltaChunks, persisted := none, finalizeCalls := 0,
            rejected := true }
      else
        if String.join deltas = "" then
          { chunks := deltaChunks
              ++ [{ error := some "Streaming failed", isFinal := true,
                    content := some (String.join deltas) }],
            persisted := none, finalizeCalls := 0, rejected := false }
        else
          { chunks := deltaChunks
              ++ [{ error := some "Streaming failed", isFinal := true,
                    content := some (String.join deltas) }],
            persisted := some (String.join deltas), finalizeCalls := 1,
            rejected := false }

theorem length_pos_of_ne_empty (s : String) (h : s ≠ "") : 0 < s.length := by
  rcases Nat.eq_zero_or_pos s.length with h0 | hpos
  · exfalso
    apply h
    have hdata : s.data = [] := by
      have := String.length_data s
      rw [h0] at this
      exact List.length_eq_zero.mp this
    cases s
    simp_all
  · exact hpos

theorem foldl_append_length (l : List String) :
    ∀ a : String, (l.foldl (· ++ ·) a).length
      = a.length + (l.map String.length).sum := by
  induction l with
  | nil => intro a; simp
  | cons d rest ih =>
    intro a
    simp only [List.foldl, List.map, List.sum_cons]
    rw [ih (a ++ d), String.length_append]
    ring

/-- The concatenation of a non-empty list of non-empty strings is
non-empty: a failed stream that delivered at least one delta always has
non-empty accumulated text. -/
theorem join_ne_empty (l : List String) (hne : l ≠ []) (hmem : "" ∉ l) :
    String.join l ≠ "" := by
  intro hjoin
  rcases l with _ | ⟨d, rest⟩
  · exact hne rfl
  have hd : d ≠ "" := fun hc => hmem (by rw [hc]; exact List.mem_cons_self _ _)
  have hpos := length_pos_of_ne_empty d hd
  have hlen : (String.join (d :: rest)).length
      = ("" : String).length + ((d :: rest).map String.length).sum :=
    foldl_append_length (d :: rest) ""
  rw [hjoin] at hlen
  simp at hlen
  omega

/-- C1: on stream failure with no delta ever delivered, `run()` falls back
to the blocking completion: when that returns text, it is emitted as the
single terminal chunk (both `content` and `delta`) and persisted as the
assistant message; on stream failure after at least one delta, a terminal
error chunk carrying the accumulated partial text is emitted, that partial
text is persisted exactly when it is non-empty, and an empty reply is
never persisted. -/
theorem runStream_failure_policy (deltas : List String) (fallback : Option String) :
    (deltas = [] → ∀ fb, fallback = some fb →
      runStream false deltas .err fallback
        = { chunks := [{ content := some fb, delta := some fb, isFinal := true }],
            persisted := some fb, finalizeCalls := 1, rejected := false })
    ∧ (deltas ≠ [] →
        (runStream false deltas .err fallback).chunks
          = deltas.map (fun d => ({ delta := some d } : ChunkPayload))
            ++ [{ error := some "Streaming failed", isFinal := true,
                  content := some (String.join deltas) }]
        ∧ (String.join deltas ≠ "" →
            (runStream false deltas .err fallback).persisted
              = some (String.join deltas))
        ∧ (String.join deltas = "" →
            (runStream false deltas .err fallback).persisted = none)
        ∧ (runStream false deltas .err fallback).persisted ≠ some "") := by
  constructor
  · rintro rfl fb rfl
    rfl
  · intro hne
    simp only [runStream, if_neg (by exact Bool.false_ne_true), if_neg hne]
    by_cases hj : String.join deltas = ""
    · rw [if_pos hj]
      exact ⟨rfl, fun hc => absurd hj hc, fun _ => rfl, by simp⟩
    · rw [if_neg hj]
      exact ⟨rfl, fun _ => rfl, fun hc => absurd hc hj, by simp [hj]⟩

/-- Concrete instantiation of `runStream_failure_policy`: failure after the
single delivered delta "Hel" persists "Hel", and failure with zero deltas
followed by the blocking fallback "Tamam" emits and persists "Tamam". -/
theorem runStream_failure_policy_witness :
    (runStream false ["Hel"] .err none).persisted = some "Hel"
    ∧ runStream false [] .err (some "Tamam")
        = { chunks := [{ content := some "Tamam", delta := some "Tamam", isFinal := true }],
            persisted := some "Tamam", finalizeCalls := 1, rejected := false } :=
  ⟨by
    have h := ((runStream_failure_policy ["Hel"] none).2 (by simp)).2.1
      (by decide)
    simpa using h,
   (runStream_failure_policy [] (some "Tamam")).1 rfl "Tamam" rfl⟩

/-- C2 counterexample: when the stream fails before any delta and the
blocking fallback itself throws, `run()` exits — with a rejected promise —
without ever calling `finalizeAndPersist`: not literally every exit path
of `run()` reaches the finalize routine. -/
theorem runStream_double_failure_cex :
    (runStream false [] .err none).finalizeCalls = 0
    ∧ (runStream false [] .err none).rejected = true :=
  ⟨rfl, rfl⟩

/-- C2 (amended): on every exit path of `run()` except the double-failure
rejection (stream failure before any delta with the blocking fallback
itself throwing) — that is, on the refusal short-circuit, the clean stream
completion, the failure path with a successful blocking fallback, and the
failure path after partial delivery (the stream client only ever delivers
non-empty deltas) — the shared finalize routine (persist assistant
message, session touch, memory-summary maintenance) runs exactly once. -/
theorem runStream_finalize_once (refuse : Bool) (deltas : List String)
    (outcome : StreamOutcome) (fallback : Option String)
    (hd : "" ∉ deltas)
    (hnot : ¬ (refuse = false ∧ outcome = .err ∧ deltas = [] ∧ fallback = none)) :
    (runStream refuse deltas outcome fallback).finalizeCalls = 1 := by
  cases refuse
  · cases outcome with
    | ok r => simp [runStream]
    | err =>
      cases deltas with
      | nil =>
        cases fallback with
        | none => exact absurd ⟨rfl, rfl, rfl, rfl⟩ hnot
        | some fb => rfl
      | cons d rest =>
        have hj : String.join (d :: rest) ≠ "" := join_ne_empty _ (by simp) hd
        simp [runStream, hj]
  · rfl

/-- Concrete instantiation of `runStream_finalize_once` on the
partial-delivery failure path with the single delta "Hel". -/
theorem runStream_finalize_once_witness :
    (runStream false ["Hel"] .err none).finalizeCalls = 1 :=
  runStream_finalize_once false ["Hel"] .err none (by decide) (by simp)

end FitCal
